import Mathlib

/-!
# poresize: covering-radius transform, CRT histogram, local porosity

A shallow embedding of the three command-line programs of the repository
(`coveringradius.cxx`, `histogram.cxx`, `porosity.cxx`) and the properties of
them that are settled here.

Modelling conventions (they apply to every definition below):

* `float` values are exact rationals (`ℚ`); `fabs` is `|·|`, `ceil` and `floor`
  are `⌈·⌉` and `⌊·⌋`.  Rounding, infinities and NaN are outside the model.
* `sqrt (q) <= d` is decided without irrational numbers as `0 ≤ d ∧ q ≤ d * d`
  (`sqrtLe`); `sqrtLe_iff_real_sqrt_le` shows that this is the comparison of the
  real square root with `d`.
* `itk::Index<3>` components are integers (`Int`); an image is its pixel
  accessor `Index3 → value`, `SetPixel` overrides one pixel.  The buffered region
  of an image read from a file starts at index `(0, 0, 0)`.
* The search half-width `s` is an `unsigned long`, and `idx - s`, `idx + s` are
  computed modulo `2 ^ 64` and stored in a signed 64-bit index (`wrapIndex`).
  The conversion of a `float` of `2 ^ 64` or more to `unsigned long` is
  undefined in C++; `halfWidth` reduces modulo `2 ^ 64` there, and every general
  theorem that depends on the search box of a source assumes its half-width in
  range.
* A full-region ITK iterator visits the buffer offsets `0, 1, …, N-1`; the index
  of offset `k` is `Region.ComputeIndex k` (x runs fastest).
* Operations whose behaviour C++ leaves undefined (a division by zero, a
  `std::vector` element access outside the vector) are faults of type `Fault`.
* An `unsigned int` holds a natural number modulo `2 ^ 32`, an `unsigned long`
  one modulo `2 ^ 64`; a loop that may not end takes fuel and returns `none`
  when the fuel runs out.
-/

namespace PoreSize

/-! ## Grid model -/

/-- The index type `itk::Index<3>`: three signed components. -/
@[ext]
structure Index3 where
  x : Int
  y : Int
  z : Int
deriving DecidableEq

/-- The size of an image region (`itk::Size<3>`); the region starts at index 0. -/
structure Region where
  nx : Nat
  ny : Nat
  nz : Nat
deriving DecidableEq

/-- A `float` image, given by its pixel accessor `GetPixel`. -/
abbrev Image := Index3 → ℚ

/-- An `unsigned char` label image, given by its pixel accessor. -/
abbrev PhaseImage := Index3 → Nat

/-- The test `region.IsInside(off)`. -/
def Region.IsInside (r : Region) (i : Index3) : Bool :=
  decide (0 ≤ i.x) && decide (i.x < r.nx) && decide (0 ≤ i.y) && decide (i.y < r.ny)
    && decide (0 ≤ i.z) && decide (i.z < r.nz)

/-- Number of pixels of the region: `GetSize()[0] * GetSize()[1] * GetSize()[2]`. -/
def Region.total (r : Region) : Nat := r.nx * r.ny * r.nz

/-- Index of the `k`-th pixel of the buffer (the iterator's `GetIndex`). -/
def Region.ComputeIndex (r : Region) (k : Nat) : Index3 :=
  ⟨((k % r.nx : Nat) : Int), (((k / r.nx) % r.ny : Nat) : Int), ((k / (r.nx * r.ny) : Nat) : Int)⟩

/-- The call `img->SetPixel(i, v)`. -/
def SetPixel (img : Image) (i : Index3) (v : ℚ) : Image :=
  fun j => if j = i then v else img j

/-- The signed 64-bit value that an index component holds after it is assigned
the `unsigned long` result `a` modulo `2 ^ 64`: the representative of `a` in
`[-2 ^ 63, 2 ^ 63)`. -/
def wrapIndex (a : Int) : Int := (a + 2 ^ 63) % 2 ^ 64 - 2 ^ 63

/-- The values `lo, lo+1, …, hi-1` of a loop `for (k = lo; k < hi; k++)`. -/
def offsets (lo hi : Int) : List Int :=
  (List.range (hi - lo).toNat).map (fun (k : Nat) => lo + (k : Int))

/-- The comparison `sqrt(q) <= d` on exact values. -/
def sqrtLe (q d : ℚ) : Bool := decide (0 ≤ d) && decide (q ≤ d * d)

/-- Squared index-space distance `x*x + y*y + z*z` between `off` and `idx`, where
`x = static_cast<float>(off[0] - idx[0])` and so on. -/
def distSq (idx off : Index3) : ℚ :=
  let x : ℚ := ((off.x - idx.x : Int) : ℚ)
  let y : ℚ := ((off.y - idx.y : Int) : ℚ)
  let z : ℚ := ((off.z - idx.z : Int) : ℚ)
  x * x + y * y + z * z

namespace CoveringRadius

/-- The constant `WRONGPHASE` of `coveringradius.cxx`. -/
def WRONGPHASE : ℚ := -1

/-- The acceptance test of line 232:
`(dist <= d) && (fabs(dtImg->GetPixel(off)) <= d)` with
`dist = sqrt(x2 + y2 + z*z)`. -/
def accept (dt : Image) (d : ℚ) (idx off : Index3) : Bool :=
  sqrtLe (distSq idx off) d && decide (|dt off| ≤ d)

/-- The indices `off` enumerated by the three nested `for` loops of lines
212-222, in loop order: every component runs from `startOffset = idx - s` up
to, and not including, `endOffset = idx + s`, both as stored in the signed
64-bit index (lines 200-208). When `idx - s` or `idx + s` leaves the signed
range the stored bounds wrap, and a loop whose start is not below its end runs
zero times. -/
def candidates (idx : Index3) (s : Nat) : List Index3 :=
  (offsets (wrapIndex (idx.x - s)) (wrapIndex (idx.x + s))).flatMap fun ox =>
    (offsets (wrapIndex (idx.y - s)) (wrapIndex (idx.y + s))).flatMap fun oy =>
      (offsets (wrapIndex (idx.z - s)) (wrapIndex (idx.z + s))).map fun oz =>
        (⟨ox, oy, oz⟩ : Index3)

/-- Body of the innermost loop (lines 224-238) for one candidate `off`. -/
def visit (region : Region) (dt : Image) (d : ℚ) (idx : Index3) (out : Image)
    (off : Index3) : Image :=
  if region.IsInside off then
    if accept dt d idx off then SetPixel out off d else out
  else out

/-- The search half-width `s = static_cast<unsigned long>(ceil(d / spX))`, a
64-bit unsigned value. -/
def halfWidth (d spX : ℚ) : Nat := Int.toNat ⌈d / spX⌉ % 2 ^ 64

/-- The three nested loops of the in-phase branch: every candidate is visited
in loop order. -/
def scatter (region : Region) (dt : Image) (d : ℚ) (idx : Index3) (s : Nat)
    (out : Image) : Image :=
  (candidates idx s).foldl (visit region dt d idx) out

/-- One iteration of the transform loop (lines 182-242) for the voxel `idx`. -/
def voxelStep (region : Region) (spX : ℚ) (dt : Image) (phaseImg : PhaseImage)
    (phase : Nat) (out : Image) (idx : Index3) : Image :=
  if phaseImg idx ≠ phase then SetPixel out idx WRONGPHASE
  else scatter region dt |dt idx| idx (halfWidth |dt idx| spX) out

/-- The output image after the first `n` iterations of the transform loop; the
output starts as a duplicate of the distance transform (lines 101-105). -/
def pass (region : Region) (spX : ℚ) (dt : Image) (phaseImg : PhaseImage)
    (phase : Nat) (n : Nat) : Image :=
  (List.range n).foldl
    (fun out k => voxelStep region spX dt phaseImg phase out (region.ComputeIndex k)) dt

/-- The output image after the whole transform loop (lines 159-247). -/
def coveringRadius (region : Region) (spX : ℚ) (dt : Image) (phaseImg : PhaseImage)
    (phase : Nat) : Image :=
  pass region spX dt phaseImg phase region.total

/-- The transform loop with its body run for the voxels of `order`, one after
the other, on the duplicate of the distance transform; the program itself uses
the buffer order `ComputeIndex 0, ComputeIndex 1, …` (`coveringRadius`). -/
def passInOrder (region : Region) (spX : ℚ) (dt : Image) (phaseImg : PhaseImage)
    (phase : Nat) (order : List Index3) : Image :=
  order.foldl (voxelStep region spX dt phaseImg phase) dt

/-- The acceptance test as the specification words it: the index-space distance
is scaled by the spacing before the comparison with `d`, that is
`sp * sqrt(dx^2 + dy^2 + dz^2) <= d`, and `|distance(off)| <= d`. -/
def specAccept (sp : ℚ) (dt : Image) (d : ℚ) (idx off : Index3) : Bool :=
  sqrtLe (sp * sp * distSq idx off) d && decide (|dt off| ≤ d)

/-- A distance-transform file as the reader delivers it: region size, the three
spacings (already narrowed to `float`) and the pixels. -/
structure DtVolume where
  size : Region
  spX : ℚ
  spY : ℚ
  spZ : ℚ
  pixels : Image

/-- A phase-model file as the reader delivers it. -/
structure PhaseVolume where
  size : Region
  pixels : PhaseImage

/-- The component `GetSize()[i]`. -/
def GetSize (r : Region) (i : Nat) : Nat :=
  match i with
  | 0 => r.nx
  | 1 => r.ny
  | _ => r.nz

/-- The isotropy check of lines 65-68. -/
def checkSpacing (spX spY spZ : ℚ) : Except String Unit :=
  if spX ≠ spY ∨ spY ≠ spZ then
    Except.error "This code requires isotropic voxels (spacing in each dimension should be equal"
  else Except.ok ()

/-- The size check of lines 80-87, one axis after the other. -/
def checkSizes (dtSize phSize : Region) : Except String Unit :=
  (List.range 3).forM fun i =>
    if GetSize dtSize i ≠ GetSize phSize i then
      Except.error "Input images are not the same size"
    else Except.ok ()

/-- What a run of the program leaves behind: its exit status and the image
handed to the writer, if the writer was reached. -/
structure Run where
  exit : Nat
  written : Option Image

/-- The `try` block of `main` (lines 40-260): the two checks, then the
transform, then the writer. -/
def tryBlock (dt : DtVolume) (ph : PhaseVolume) (phase : Nat) : Except String Image := do
  checkSpacing dt.spX dt.spY dt.spZ
  checkSizes dt.size ph.size
  pure (coveringRadius dt.size dt.spX dt.pixels ph.pixels phase)

/-- The program `coveringradius` on inputs that were read successfully: an
`itk::ExceptionObject` is caught and turned into exit status 1 (lines 261-265). -/
def main (dt : DtVolume) (ph : PhaseVolume) (phase : Nat) : Run :=
  match tryBlock dt ph phase with
  | Except.error _ => { exit := 1, written := none }
  | Except.ok out => { exit := 0, written := some out }

end CoveringRadius

/-! ## Faults -/

deriving instance DecidableEq for Except

/-- Operations with undefined behaviour that the programs can reach. -/
inductive Fault
  | divisionByZero
  | indexOutOfRange
deriving DecidableEq

/-- The `float` division `a / b`. -/
def fdiv (a b : ℚ) : Except Fault ℚ :=
  if b = 0 then Except.error Fault.divisionByZero else Except.ok (a / b)

/-- The assignment `v[i] = a` on a `std::vector`. -/
def vecSet {α : Type} (v : List α) (i : Nat) (a : α) : Except Fault (List α) :=
  if i < v.length then Except.ok (v.set i a) else Except.error Fault.indexOutOfRange

/-- The read `v[i]` on a `std::vector`. -/
def vecGet {α : Type} (v : List α) (i : Nat) : Except Fault α :=
  match v[i]? with
  | some a => Except.ok a
  | none => Except.error Fault.indexOutOfRange

namespace Histogram

/-- The first loop of `histogram.cxx` (lines 58-72) over the voxel values in
iteration order: the values `d >= 0` are appended to `porePhase` and `max`
follows the largest of them, starting from `0`. -/
def collect (field : List ℚ) : List ℚ × ℚ :=
  field.foldl
    (fun acc d => if d ≥ 0 then (acc.1 ++ [d], if d > acc.2 then d else acc.2) else acc)
    ([], 0)

/-- One round of the loop of lines 89-93:
`binsMin[i] = binsMax[i-1]; binsMax[i] = binsMin[i] + sz`. -/
def rangeStep (sz : ℚ) (bins : List ℚ × List ℚ) (i : Nat) : Except Fault (List ℚ × List ℚ) := do
  let prev ← vecGet bins.2 (i - 1)
  let binsMin ← vecSet bins.1 i prev
  let cur ← vecGet binsMin i
  let binsMax ← vecSet bins.2 i (cur + sz)
  pure (binsMin, binsMax)

/-- The bin ranges (lines 79-96): two vectors of `numbins` elements, filled
from bin 0 upwards, and then the assignment `binsMax[numbins] = max + 0.00001f`. -/
def binRanges (max sz : ℚ) (numbins : Nat) : Except Fault (List ℚ × List ℚ) := do
  let binsMin ← vecSet (List.replicate numbins (0 : ℚ)) 0 0
  let binsMax ← vecSet (List.replicate numbins (0 : ℚ)) 0 sz
  let bins ← (List.range' 1 (numbins - 1)).foldlM (rangeStep sz) (binsMin, binsMax)
  let binsMax ← vecSet bins.2 numbins (max + 1 / 100000)
  pure (bins.1, binsMax)

/-- The bin index of line 112:
`static_cast<unsigned int>(floor(porePhase[i] / sz))`. -/
def binOf (v sz : ℚ) : Except Fault Nat := do
  let q ← fdiv v sz
  pure (Int.toNat ⌊q⌋)

/-- The statement `poreHisto[bin] = poreHisto[bin] + 1` of line 113. -/
def countInto (poreHisto : List Nat) (bin : Nat) : Except Fault (List Nat) := do
  let old ← vecGet poreHisto bin
  vecSet poreHisto bin (old + 1)

/-- The counting loop (lines 101-114), starting from `numbins` zeroed bins. -/
def sortIntoBins (porePhase : List ℚ) (sz : ℚ) (numbins : Nat) : Except Fault (List Nat) :=
  porePhase.foldlM (fun poreHisto v => do
    let bin ← binOf v sz
    countInto poreHisto bin) (List.replicate numbins 0)

/-- The fractions of lines 117-123: `poreHisto[i] / porePhase.size()`. -/
def percentages (poreHisto : List Nat) (n : Nat) : Except Fault (List ℚ) :=
  poreHisto.mapM fun (c : Nat) => fdiv (c : ℚ) (n : ℚ)

/-- What the histogram program prints and writes. -/
structure Output where
  binsMin : List ℚ
  binsMax : List ℚ
  poreHisto : List Nat
  porePercent : List ℚ
deriving DecidableEq

/-- The computation of `histogram.cxx` on the voxel values of the covering-radius
file and the bin count `numbins`. -/
def main (field : List ℚ) (numbins : Nat) : Except Fault Output := do
  let porePhase := (collect field).1
  let max := (collect field).2
  let sz ← fdiv max (numbins : ℚ)
  let bins ← binRanges max sz numbins
  let poreHisto ← sortIntoBins porePhase sz numbins
  let porePercent ← percentages poreHisto porePhase.length
  pure { binsMin := bins.1, binsMax := bins.2, poreHisto := poreHisto, porePercent := porePercent }

end Histogram

namespace Porosity

/-- The radius `static_cast<unsigned int>(atoi(argv[4]))`, from the integer that
`atoi` returns. -/
def parseRadius (arg : Int) : Nat := (arg % 2 ^ 32).toNat

/-- The radius check of lines 68-71. -/
def checkRadius (nsize : Nat) : Except String Unit :=
  if nsize < 1 then Except.error "Neighborhood size must be greater than zero"
  else Except.ok ()

/-- The number of neighbourhood elements `phase_it.Size()`, an `unsigned long`:
a cube of side `2 * nsize + 1`. -/
def neighborhoodSize (nsize : Nat) : Nat := (2 * nsize + 1) ^ 3 % 2 ^ 64

/-- Modelled from the spec: the boundary condition of ITK's neighbourhood
iterator (`ZeroFluxNeumannBoundaryCondition`) is library code; an index outside
the volume reads the nearest in-bounds index, one axis at a time. -/
def clampIndex (n : Nat) (a : Int) : Int :=
  if a < 0 then 0 else if (n : Int) ≤ a then (n : Int) - 1 else a

/-- The read `phase_it.GetPixel(i)`: element `i` of the neighbourhood of
`center`, x running fastest, with out-of-bounds reads replaced by the nearest
in-bounds voxel. -/
def GetPixel (region : Region) (img : PhaseImage) (nsize : Nat) (center : Index3)
    (i : Nat) : Nat :=
  img ⟨clampIndex region.nx (center.x + ((i % (2 * nsize + 1) : Nat) : Int) - nsize),
    clampIndex region.ny (center.y + ((i / (2 * nsize + 1) % (2 * nsize + 1) : Nat) : Int) - nsize),
    clampIndex region.nz
      (center.z + ((i / ((2 * nsize + 1) * (2 * nsize + 1)) : Nat) : Int) - nsize)⟩

/-- The loop of lines 123-129, `for (unsigned i = 0; i < phase_it.Size(); i++)`,
with the 32-bit counter `i`; `none` when the fuel runs out. The 64-bit counter
`localCount` grows by at most one per round and cannot wrap before `i` does. -/
def countLoop (size : Nat) (pixel : Nat → Nat) (phase : Nat) : Nat → Nat → Nat → Option Nat
  | 0, _, _ => none
  | fuel + 1, i, localCount =>
    if i < size then
      countLoop size pixel phase fuel ((i + 1) % 2 ^ 32)
        (if pixel i = phase then localCount + 1 else localCount)
    else some localCount

/-- The value stored for one voxel (line 132):
`localCount / phase_it.Size()`. -/
def localPorosity (fuel : Nat) (region : Region) (img : PhaseImage) (phase nsize : Nat)
    (center : Index3) : Option ℚ :=
  (countLoop (neighborhoodSize nsize) (GetPixel region img nsize center) phase fuel 0 0).map
    fun (localCount : Nat) => (localCount : ℚ) / (neighborhoodSize nsize : ℚ)

/-- The outer loop (lines 102-137) over the buffer offsets `ks`: the values
written to the output image, in iteration order. -/
def localLoop (fuel : Nat) (region : Region) (img : PhaseImage) (phase nsize : Nat) :
    List Nat → Option (List ℚ)
  | [] => some []
  | k :: ks =>
    match localPorosity fuel region img phase nsize (region.ComputeIndex k) with
    | none => none
    | some p => (localLoop fuel region img phase nsize ks).map fun ps => p :: ps

/-- The counter `globalCount` after the outer loop (line 119). -/
def globalCount (region : Region) (img : PhaseImage) (phase : Nat) : Nat :=
  (List.range region.total).foldl
    (fun g k => if img (region.ComputeIndex k) = phase then g + 1 else g) 0

/-- The ways a run of the porosity program can end. -/
inductive Outcome
  | outOfFuel
  | exception (exit : Nat)
  | fault (f : Fault)
  | finished (localValues : List ℚ) (globalValue : ℚ)
deriving DecidableEq

/-- The program `porosity` on a phase model that was read successfully, with the
radius argument as `atoi` returns it. -/
def main (fuel : Nat) (region : Region) (img : PhaseImage) (phase : Nat) (radiusArg : Int) :
    Outcome :=
  match checkRadius (parseRadius radiusArg) with
  | Except.error _ => Outcome.exception 1
  | Except.ok _ =>
    match localLoop fuel region img phase (parseRadius radiusArg) (List.range region.total) with
    | none => Outcome.outOfFuel
    | some localValues =>
      match fdiv (globalCount region img phase : ℚ) (region.total : ℚ) with
      | Except.error f => Outcome.fault f
      | Except.ok p => Outcome.finished localValues p

end Porosity

/-! ## Concrete volumes used in the evaluations -/

/-- A `float` image that depends on the x index only: `vals[x]`, and `0` past
the end of the list. -/
def lineImage (vals : List ℚ) : Image := fun i => vals.getD i.x.toNat 0

/-- A label image that depends on the x index only. -/
def linePhase (vals : List Nat) : PhaseImage := fun i => vals.getD i.x.toNat 0

/-- A `float` image with value `a` at `c` and `b` everywhere else. -/
def spikeImage (c : Index3) (a b : ℚ) : Image := fun i => if i = c then a else b

/-- A label image with the same label everywhere. -/
def uniformPhase (label : Nat) : PhaseImage := fun _ => label

/-! ## Covering radius: the effect of one step and of the pass -/

open CoveringRadius Histogram Porosity

theorem foldl_visit_apply (region : Region) (dt : Image) (d : ℚ) (idx : Index3)
    (l : List Index3) (out : Image) (v : Index3) :
    (l.foldl (visit region dt d idx) out) v =
      if v ∈ l ∧ region.IsInside v = true ∧ accept dt d idx v = true then d else out v := by
  induction l generalizing out with
  | nil => simp
  | cons a l ih =>
    rw [List.foldl_cons, ih]
    by_cases hva : v = a
    · subst hva
      by_cases h1 : region.IsInside v = true <;> by_cases h2 : accept dt d idx v = true <;>
        simp [visit, SetPixel, h1, h2]
    · by_cases h1 : region.IsInside a = true <;> by_cases h2 : accept dt d idx a = true <;>
        simp [visit, SetPixel, h1, h2, hva]

theorem voxelStep_apply (region : Region) (spX : ℚ) (dt : Image) (phaseImg : PhaseImage)
    (phase : Nat) (out : Image) (idx v : Index3) :
    voxelStep region spX dt phaseImg phase out idx v =
      if phaseImg idx ≠ phase then (if v = idx then WRONGPHASE else out v)
      else if v ∈ candidates idx (halfWidth |dt idx| spX) ∧ region.IsInside v = true ∧
          accept dt |dt idx| idx v = true then |dt idx| else out v := by
  unfold voxelStep
  by_cases h : phaseImg idx ≠ phase
  · rw [if_pos h, if_pos h]; rfl
  · rw [if_neg h, if_neg h]; exact foldl_visit_apply _ _ _ _ _ _ _

theorem isInside_iff (r : Region) (i : Index3) :
    r.IsInside i = true ↔
      (0 ≤ i.x ∧ i.x < r.nx) ∧ (0 ≤ i.y ∧ i.y < r.ny) ∧ (0 ≤ i.z ∧ i.z < r.nz) := by
  simp [Region.IsInside, and_assoc]

theorem sqrtLe_iff_real_sqrt_le (q d : ℚ) :
    sqrtLe q d = true ↔ Real.sqrt (q : ℝ) ≤ (d : ℝ) := by
  rw [Real.sqrt_le_iff]
  unfold sqrtLe
  simp only [Bool.and_eq_true, decide_eq_true_eq]
  constructor
  · rintro ⟨h0, h1⟩
    refine ⟨by exact_mod_cast h0, ?_⟩
    have : (q : ℝ) ≤ (d : ℝ) * (d : ℝ) := by exact_mod_cast h1
    rw [sq]; exact this
  · rintro ⟨h0, h1⟩
    refine ⟨by exact_mod_cast h0, ?_⟩
    rw [sq] at h1
    exact_mod_cast h1

/-! ## Geometry checks -/

theorem checkSpacing_ok (spX spY spZ : ℚ) (h1 : spX = spY) (h2 : spY = spZ) :
    checkSpacing spX spY spZ = Except.ok () := by
  unfold checkSpacing
  rw [if_neg]
  rintro (h | h)
  · exact h h1
  · exact h h2

theorem checkSpacing_error (spX spY spZ : ℚ) (h : ¬ (spX = spY ∧ spY = spZ)) :
    ∃ msg, checkSpacing spX spY spZ = Except.error msg := by
  unfold checkSpacing
  refine ⟨_, if_pos ?_⟩
  by_contra hc
  push_neg at hc
  exact h hc

theorem checkSizes_ok (a b : Region) (hx : a.nx = b.nx) (hy : a.ny = b.ny) (hz : a.nz = b.nz) :
    checkSizes a b = Except.ok () := by
  simp [checkSizes, List.range, List.range.loop, GetSize, hx, hy, hz]
  rfl

theorem checkSizes_error (a b : Region) (h : a.nx ≠ b.nx ∨ a.ny ≠ b.ny ∨ a.nz ≠ b.nz) :
    checkSizes a b = Except.error "Input images are not the same size" := by
  by_cases hx : a.nx = b.nx
  · by_cases hy : a.ny = b.ny
    · have hz : a.nz ≠ b.nz := by
        rcases h with h | h | h
        · exact absurd hx h
        · exact absurd hy h
        · exact h
      simp [checkSizes, List.range, List.range.loop, GetSize, hx, hy, hz]
      rfl
    · simp [checkSizes, List.range, List.range.loop, GetSize, hx, hy]
      rfl
  · simp [checkSizes, List.range, List.range.loop, GetSize, hx]
    rfl

/-! ## Histogram -/

/-- The largest collected value `max > 0` has bin index `numbins`, one past the
last bin: `floor(max / (max / numbins)) = numbins`. -/
theorem binOf_max (max : ℚ) (numbins : Nat) (hmax : 0 < max) (hk : 1 ≤ numbins) :
    binOf max (max / (numbins : ℚ)) = Except.ok numbins := by
  have hk0 : (numbins : ℚ) ≠ 0 := by
    have : (0 : ℚ) < (numbins : ℚ) := by exact_mod_cast hk
    exact ne_of_gt this
  have hsz : max / (numbins : ℚ) ≠ 0 := div_ne_zero (ne_of_gt hmax) hk0
  have hq : max / (max / (numbins : ℚ)) = ((numbins : Int) : ℚ) := by
    have hm : max ≠ 0 := ne_of_gt hmax
    field_simp
  unfold binOf fdiv
  rw [if_neg hsz]
  show Except.ok (Int.toNat ⌊max / (max / (numbins : ℚ))⌋) = Except.ok numbins
  rw [hq, Int.floor_intCast, Int.toNat_ofNat]

/-! ## Porosity -/

theorem countLoop_uniform (size : Nat) (pixel : Nat → Nat) (phase : Nat)
    (hsize : size < 2 ^ 32) (hpix : ∀ i, pixel i = phase) :
    ∀ fuel i localCount, i ≤ size → size - i < fuel →
      countLoop size pixel phase fuel i localCount = some (localCount + (size - i)) := by
  intro fuel
  induction fuel with
  | zero => intro i lc _ h; exact absurd h (Nat.not_lt_zero _)
  | succ fuel ih =>
    intro i lc hi hf
    unfold countLoop
    by_cases hlt : i < size
    · rw [if_pos hlt, if_pos (hpix i)]
      have hmod : (i + 1) % 2 ^ 32 = i + 1 := Nat.mod_eq_of_lt (by omega)
      rw [hmod, ih (i + 1) (lc + 1) (by omega) (by omega)]
      congr 1
      omega
    · rw [if_neg hlt]
      congr 1
      omega

theorem countLoop_diverges (size : Nat) (pixel : Nat → Nat) (phase : Nat)
    (hsize : 2 ^ 32 ≤ size) :
    ∀ fuel i localCount, i < 2 ^ 32 → countLoop size pixel phase fuel i localCount = none := by
  intro fuel
  induction fuel with
  | zero => intro i lc _; rfl
  | succ fuel ih =>
    intro i lc hi
    unfold countLoop
    rw [if_pos (by omega)]
    exact ih _ _ (Nat.mod_lt _ (by norm_num))

theorem clampIndex_range (n : Nat) (a : Int) (hn : 0 < n) :
    0 ≤ clampIndex n a ∧ clampIndex n a < n := by
  unfold clampIndex
  split
  · omega
  · split <;> omega

theorem GetPixel_uniform (region : Region) (img : PhaseImage) (phase nsize : Nat)
    (center : Index3) (i : Nat) (hne : 0 < region.total)
    (huni : ∀ v, region.IsInside v = true → img v = phase) :
    GetPixel region img nsize center i = phase := by
  unfold Region.total at hne
  have hx : 0 < region.nx := by
    rcases Nat.eq_zero_or_pos region.nx with h | h
    · rw [h] at hne; simp at hne
    · exact h
  have hy : 0 < region.ny := by
    rcases Nat.eq_zero_or_pos region.ny with h | h
    · rw [h] at hne; simp at hne
    · exact h
  have hz : 0 < region.nz := by
    rcases Nat.eq_zero_or_pos region.nz with h | h
    · rw [h] at hne; simp at hne
    · exact h
  unfold GetPixel
  apply huni
  rw [isInside_iff]
  exact ⟨clampIndex_range _ _ hx, clampIndex_range _ _ hy, clampIndex_range _ _ hz⟩

theorem localLoop_uniform (fuel : Nat) (region : Region) (img : PhaseImage)
    (phase nsize : Nat) (ks : List Nat)
    (h : ∀ k ∈ ks, localPorosity fuel region img phase nsize (region.ComputeIndex k) = some 1) :
    localLoop fuel region img phase nsize ks = some (List.replicate ks.length 1) := by
  induction ks with
  | nil => rfl
  | cons k ks ih =>
    unfold localLoop
    rw [h k (List.mem_cons_self _ _)]
    simp only
    rw [ih (fun j hj => h j (List.mem_cons_of_mem _ hj))]
    rfl

theorem isInside_computeIndex (r : Region) (k : Nat) (hk : k < r.total) :
    r.IsInside (r.ComputeIndex k) = true := by
  unfold Region.total at hk
  have hx : 0 < r.nx := by
    rcases Nat.eq_zero_or_pos r.nx with h | h
    · rw [h] at hk; simp at hk
    · exact h
  have hy : 0 < r.ny := by
    rcases Nat.eq_zero_or_pos r.ny with h | h
    · rw [h] at hk; simp at hk
    · exact h
  rw [isInside_iff]
  unfold Region.ComputeIndex
  simp only
  have h1 : k % r.nx < r.nx := Nat.mod_lt _ hx
  have h2 : k / r.nx % r.ny < r.ny := Nat.mod_lt _ hy
  have h3 : k / (r.nx * r.ny) < r.nz := by
    rw [Nat.div_lt_iff_lt_mul (Nat.mul_pos hx hy)]
    calc k < r.nx * r.ny * r.nz := hk
      _ = r.nz * (r.nx * r.ny) := by ring
  exact ⟨⟨Int.ofNat_nonneg _, Int.ofNat_lt.mpr h1⟩, ⟨Int.ofNat_nonneg _, Int.ofNat_lt.mpr h2⟩,
    Int.ofNat_nonneg _, Int.ofNat_lt.mpr h3⟩

theorem foldl_count_all (P : Nat → Prop) [DecidablePred P] (n : Nat)
    (h : ∀ k, k < n → P k) :
    (List.range n).foldl (fun g k => if P k then g + 1 else g) 0 = n := by
  induction n with
  | zero => rfl
  | succ n ih =>
    rw [List.range_succ, List.foldl_append, ih (fun k hk => h k (Nat.lt_succ_of_lt hk))]
    simp [h n (Nat.lt_succ_self n)]

theorem globalCount_uniform (region : Region) (img : PhaseImage) (phase : Nat)
    (huni : ∀ v, region.IsInside v = true → img v = phase) :
    globalCount region img phase = region.total := by
  unfold globalCount
  exact foldl_count_all (fun k => img (region.ComputeIndex k) = phase) _
    (fun k hk => huni _ (isInside_computeIndex region k hk))

theorem parseRadius_of_small (n : Nat) (h : n < 2 ^ 32) : parseRadius (n : Int) = n := by
  unfold parseRadius
  have : (n : Int) % 2 ^ 32 = (n : Int) := Int.emod_eq_of_lt (by omega) (by omega)
  rw [this, Int.toNat_ofNat]

/-- For a radius whose neighbourhood has fewer than `2 ^ 32` elements, a uniform
non-empty volume gets local porosity 1 at every voxel and global porosity 1,
for every fuel above the neighbourhood size. -/
theorem uniform_porosity_small_radius (region : Region) (img : PhaseImage) (phase : Nat)
    (n : Nat) (fuel : Nat) (hne : 0 < region.total)
    (huni : ∀ v, region.IsInside v = true → img v = phase)
    (hr : 1 ≤ n) (hsmall : (2 * n + 1) ^ 3 < 2 ^ 32) (hfuel : (2 * n + 1) ^ 3 < fuel) :
    Porosity.main fuel region img phase (n : Int) =
      Outcome.finished (List.replicate region.total 1) 1 := by
  have hn32 : n < 2 ^ 32 := by
    have : 2 * n + 1 ≤ (2 * n + 1) ^ 3 := Nat.le_self_pow (by norm_num) _
    omega
  have hsize : neighborhoodSize n = (2 * n + 1) ^ 3 := by
    unfold neighborhoodSize
    exact Nat.mod_eq_of_lt (by omega)
  have hpos : 0 < (2 * n + 1) ^ 3 := by positivity
  have hlocal : ∀ center, localPorosity fuel region img phase n center = some 1 := by
    intro center
    unfold localPorosity
    rw [countLoop_uniform _ _ _ (by rw [hsize]; exact hsmall)
      (fun i => GetPixel_uniform region img phase n center i hne huni) fuel 0 0
      (Nat.zero_le _) (by rw [hsize]; omega)]
    simp only [Option.map_some', Nat.zero_add, Nat.sub_zero]
    rw [hsize]
    congr 1
    have : (((2 * n + 1) ^ 3 : Nat) : ℚ) ≠ 0 := by exact_mod_cast (ne_of_gt hpos)
    exact div_self this
  have hcheck : checkRadius n = Except.ok () := by
    unfold checkRadius
    rw [if_neg (by omega)]
  have htot : (region.total : ℚ) ≠ 0 := by exact_mod_cast (ne_of_gt hne)
  unfold Porosity.main
  rw [parseRadius_of_small n hn32, hcheck]
  simp only
  rw [localLoop_uniform fuel region img phase n _ (fun k _ => hlocal _)]
  simp only [List.length_range]
  rw [globalCount_uniform region img phase huni]
  unfold fdiv
  rw [if_neg htot, div_self htot]

/-- The uniform 2x2x2 volume with radius 1: every local value and the global
value are 1. -/
theorem uniform_porosity_radius_one_example :
    Porosity.main 28 ⟨2, 2, 2⟩ (uniformPhase 1) 1 1 =
      Outcome.finished (List.replicate 8 1) 1 :=
  uniform_porosity_small_radius ⟨2, 2, 2⟩ (uniformPhase 1) 1 1 28 (by decide)
    (fun _ _ => rfl) (by decide) (by decide) (by decide)

/-! ## The claims -/

/-- C1. Phase exclusion fails on the code: in the 2x1x1 volume with distance
values `[0, 1]` and labels `[0, 1]`, target phase 1 and spacing 1, voxel
`(0,0,0)` is not of the target phase and holds the sentinel after its own visit,
but the later visit of the in-phase voxel `(1,0,0)` accepts it and overwrites
it: at the end of the pass it holds `1`, not `WRONGPHASE`. -/
theorem wrongphase_voxel_overwritten_by_later_source :
    linePhase [0, 1] ⟨0, 0, 0⟩ ≠ 1 ∧
      Region.IsInside ⟨2, 1, 1⟩ ⟨0, 0, 0⟩ = true ∧
      pass ⟨2, 1, 1⟩ 1 (lineImage [0, 1]) (linePhase [0, 1]) 1 1 ⟨0, 0, 0⟩ = WRONGPHASE ∧
      accept (lineImage [0, 1]) 1 ⟨1, 0, 0⟩ ⟨0, 0, 0⟩ = true ∧
      coveringRadius ⟨2, 1, 1⟩ 1 (lineImage [0, 1]) (linePhase [0, 1]) 1 ⟨0, 0, 0⟩ = 1 ∧
      coveringRadius ⟨2, 1, 1⟩ 1 (lineImage [0, 1]) (linePhase [0, 1]) 1 ⟨0, 0, 0⟩
        ≠ WRONGPHASE := by
  decide!

/-- C2. Maximum semantics fail on the code: in the 3x1x1 volume with distance
values `[2, 0, 1]`, all voxels of the target phase, spacing 1, the source
`(0,0,0)` (radius 2) accepts voxel `(1,0,0)` and sets it to 2; the later source
`(2,0,0)` (radius 1) accepts it too and the unconditional `SetPixel` lowers it
to 1, so the final value is not the maximum 2 of the accepted radii. -/
theorem later_smaller_radius_lowers_cell :
    accept (lineImage [2, 0, 1]) 2 ⟨0, 0, 0⟩ ⟨1, 0, 0⟩ = true ∧
      accept (lineImage [2, 0, 1]) 1 ⟨2, 0, 0⟩ ⟨1, 0, 0⟩ = true ∧
      pass ⟨3, 1, 1⟩ 1 (lineImage [2, 0, 1]) (linePhase [1, 1, 1]) 1 1 ⟨1, 0, 0⟩ = 2 ∧
      pass ⟨3, 1, 1⟩ 1 (lineImage [2, 0, 1]) (linePhase [1, 1, 1]) 1 2 ⟨1, 0, 0⟩ = 2 ∧
      coveringRadius ⟨3, 1, 1⟩ 1 (lineImage [2, 0, 1]) (linePhase [1, 1, 1]) 1 ⟨1, 0, 0⟩
        = 1 := by
  decide!

/-- C5. Geometry validation: if the two volumes differ in size on some axis, or
the three spacings of the distance transform are not all equal, the run ends
with exit status 1 and the writer is not reached; if the sizes agree and the
spacing is isotropic, neither check raises and the run hands the result of the
transform loop to the writer with exit status 0. -/
theorem geometry_validation (dt : DtVolume) (ph : PhaseVolume) (phase : Nat) :
    ((dt.size.nx ≠ ph.size.nx ∨ dt.size.ny ≠ ph.size.ny ∨ dt.size.nz ≠ ph.size.nz ∨
        ¬ (dt.spX = dt.spY ∧ dt.spY = dt.spZ)) →
      (∃ msg, tryBlock dt ph phase = Except.error msg) ∧
        CoveringRadius.main dt ph phase = { exit := 1, written := none }) ∧
    ((dt.size.nx = ph.size.nx ∧ dt.size.ny = ph.size.ny ∧ dt.size.nz = ph.size.nz ∧
        dt.spX = dt.spY ∧ dt.spY = dt.spZ) →
      checkSpacing dt.spX dt.spY dt.spZ = Except.ok () ∧
        checkSizes dt.size ph.size = Except.ok () ∧
        CoveringRadius.main dt ph phase =
          { exit := 0,
            written := some (coveringRadius dt.size dt.spX dt.pixels ph.pixels phase) }) := by
  constructor
  · intro hbad
    have herr : ∃ msg, tryBlock dt ph phase = Except.error msg := by
      by_cases hsp : dt.spX = dt.spY ∧ dt.spY = dt.spZ
      · have hsz : dt.size.nx ≠ ph.size.nx ∨ dt.size.ny ≠ ph.size.ny ∨
            dt.size.nz ≠ ph.size.nz := by
          rcases hbad with h | h | h | h
          · exact Or.inl h
          · exact Or.inr (Or.inl h)
          · exact Or.inr (Or.inr h)
          · exact absurd hsp h
        refine ⟨"Input images are not the same size", ?_⟩
        unfold tryBlock
        rw [checkSpacing_ok _ _ _ hsp.1 hsp.2, checkSizes_error _ _ hsz]
        rfl
      · obtain ⟨msg, hmsg⟩ := checkSpacing_error _ _ _ hsp
        refine ⟨msg, ?_⟩
        unfold tryBlock
        rw [hmsg]
        rfl
    obtain ⟨msg, hmsg⟩ := herr
    refine ⟨⟨msg, hmsg⟩, ?_⟩
    unfold CoveringRadius.main
    rw [hmsg]
  · rintro ⟨hx, hy, hz, h1, h2⟩
    have hs := checkSpacing_ok _ _ _ h1 h2
    have hz := checkSizes_ok _ _ hx hy hz
    refine ⟨hs, hz, ?_⟩
    unfold CoveringRadius.main tryBlock
    rw [hs, hz]
    rfl

/-- Witness of C5: spacing `(1, 1, 2)` on equal 2x2x2 sizes is rejected, and a
10x10x10 distance field with a 10x10x11 phase field is rejected; isotropic
spacing on equal sizes is not. -/
theorem geometry_validation_witness :
    CoveringRadius.main ⟨⟨2, 2, 2⟩, 1, 1, 2, lineImage [1, 1]⟩ ⟨⟨2, 2, 2⟩, linePhase [1, 1]⟩ 1
        = { exit := 1, written := none } ∧
      CoveringRadius.main ⟨⟨10, 10, 10⟩, 1, 1, 1, lineImage []⟩ ⟨⟨10, 10, 11⟩, linePhase []⟩ 1
        = { exit := 1, written := none } ∧
      CoveringRadius.main ⟨⟨2, 1, 1⟩, 1, 1, 1, lineImage [0, 1]⟩ ⟨⟨2, 1, 1⟩, linePhase [0, 1]⟩ 1
        = { exit := 0,
            written := some (coveringRadius ⟨2, 1, 1⟩ 1 (lineImage [0, 1]) (linePhase [0, 1]) 1) } :=
  ⟨((geometry_validation ⟨⟨2, 2, 2⟩, 1, 1, 2, lineImage [1, 1]⟩ ⟨⟨2, 2, 2⟩, linePhase [1, 1]⟩
      1).1 (Or.inr (Or.inr (Or.inr (by decide))))).2,
    ((geometry_validation ⟨⟨10, 10, 10⟩, 1, 1, 1, lineImage []⟩ ⟨⟨10, 10, 11⟩, linePhase []⟩
      1).1 (Or.inr (Or.inr (Or.inl (by decide))))).2,
    ((geometry_validation ⟨⟨2, 1, 1⟩, 1, 1, 1, lineImage [0, 1]⟩ ⟨⟨2, 1, 1⟩, linePhase [0, 1]⟩
      1).2 ⟨rfl, rfl, rfl, rfl, rfl⟩).2.2⟩

/-- C6. Bin membership fails on the code for the largest value: for the field
`[0.5, 1, -1]` and 2 bins, `max = 1` and the bin width is `0.5`; the value `0.5`
gets bin index 1, but the value `max = 1` gets bin index `floor(1 / 0.5) = 2`,
which is not below the bin count, so the counting loop indexes `poreHisto`
past its end; the assignment `binsMax[numbins]` does the same to `binsMax`. -/
theorem histogram_max_value_indexed_past_last_bin :
    collect [1 / 2, 1, -1] = ([1 / 2, 1], 1) ∧
      fdiv 1 ((2 : Nat) : ℚ) = Except.ok (1 / 2) ∧
      binOf (1 / 2) (1 / 2) = Except.ok 1 ∧
      binOf 1 (1 / 2) = Except.ok 2 ∧
      sortIntoBins [1 / 2, 1] (1 / 2) 2 = Except.error Fault.indexOutOfRange ∧
      binRanges 1 (1 / 2) 2 = Except.error Fault.indexOutOfRange ∧
      Histogram.main [1 / 2, 1, -1] 2 = Except.error Fault.indexOutOfRange := by
  decide!

/-- C7. The degenerate histogram divides by zero on the code: for the field
`[0, -1]` and 2 bins, `max = 0`, the bin width `0 / 2 = 0` is computed without a
fault, and the bin index of the value `0` is `floor(0 / 0)`: the counting loop
stops at a division by zero and no voxel is counted in bin 0. -/
theorem histogram_zero_max_divides_by_zero :
    collect [0, -1] = ([0], 0) ∧
      fdiv 0 ((2 : Nat) : ℚ) = Except.ok 0 ∧
      binOf 0 0 = Except.error Fault.divisionByZero ∧
      sortIntoBins [0] 0 2 = Except.error Fault.divisionByZero := by
  decide!

theorem checkRadius_zero : checkRadius (parseRadius 0) ≠ Except.ok () := by
  decide

theorem checkRadius_pos (r : Int) (h1 : 1 ≤ r) (h2 : r < 2 ^ 31) :
    checkRadius (parseRadius r) = Except.ok () := by
  obtain ⟨n, rfl⟩ := Int.eq_ofNat_of_zero_le (by omega : 0 ≤ r)
  rw [parseRadius_of_small n (by omega)]
  unfold checkRadius
  rw [if_neg (by omega)]

/-- C8. Radius validation fails on the code for negative radii: the argument
`-1` becomes the `unsigned int` 4294967295, which is not below 1, so the check
does not raise and the run does not end with the configuration error. -/
theorem negative_radius_passes_check :
    parseRadius (-1) = 4294967295 ∧
      checkRadius (parseRadius (-1)) = Except.ok () ∧
      ∀ fuel, Porosity.main fuel ⟨1, 1, 1⟩ (uniformPhase 1) 1 (-1) ≠ Outcome.exception 1 := by
  refine ⟨by decide, by decide, ?_⟩
  intro fuel
  have hcheck : checkRadius (parseRadius (-1)) = Except.ok () := by decide
  unfold Porosity.main
  rw [hcheck]
  simp only
  split
  · exact fun h => Outcome.noConfusion h
  · split
    · exact fun h => Outcome.noConfusion h
    · exact fun h => Outcome.noConfusion h

/-- C9. A uniform volume does not get porosity 1 for every radius: with radius
813 the neighbourhood has `1627 ^ 3 = 4306878883` elements, more than the 32-bit
counter `i` of the counting loop can reach, so on the uniform 2x2x2 volume the
loop condition `i < Size()` never fails and no fuel lets the run finish. -/
theorem porosity_count_loop_never_ends_at_radius_813 :
    neighborhoodSize (parseRadius 813) = 4306878883 ∧
      ∀ fuel, Porosity.main fuel ⟨2, 2, 2⟩ (uniformPhase 1) 1 813 = Outcome.outOfFuel := by
  have hsize : neighborhoodSize (parseRadius 813) = 4306878883 := by decide!
  refine ⟨hsize, ?_⟩
  intro fuel
  have hcheck : checkRadius (parseRadius 813) = Except.ok () := by decide
  have hrange : List.range (Region.total ⟨2, 2, 2⟩) = [0, 1, 2, 3, 4, 5, 6, 7] := by decide
  have hloc : ∀ center, localPorosity fuel ⟨2, 2, 2⟩ (uniformPhase 1) 1 (parseRadius 813) center
      = none := by
    intro center
    unfold localPorosity
    rw [countLoop_diverges _ _ _ (by rw [hsize]; norm_num) fuel 0 0 (by norm_num)]
    rfl
  unfold Porosity.main
  rw [hcheck, hrange]
  simp only
  unfold localLoop
  rw [hloc]

/-- C10. The acceptance test does not scale the distance by the spacing. With
spacing 2 and a source `(3,3,3)` of radius 3 in a 7x7x7 volume, the in-bounds
candidate `(1,3,3)` of the search box (half-width 2) is at physical distance 4,
yet the code accepts it and the pass leaves it at 3; with spacing 1/2 and a
source of radius 1, the candidate `(1,3,3)` is at physical distance 1, yet the
code rejects it. -/
theorem acceptance_ignores_spacing :
    Region.IsInside ⟨7, 7, 7⟩ ⟨1, 3, 3⟩ = true ∧
      (⟨1, 3, 3⟩ : Index3) ∈ candidates ⟨3, 3, 3⟩ (halfWidth 3 2) ∧
      accept (spikeImage ⟨3, 3, 3⟩ 3 0) 3 ⟨3, 3, 3⟩ ⟨1, 3, 3⟩ = true ∧
      specAccept 2 (spikeImage ⟨3, 3, 3⟩ 3 0) 3 ⟨3, 3, 3⟩ ⟨1, 3, 3⟩ = false ∧
      coveringRadius ⟨7, 7, 7⟩ 2 (spikeImage ⟨3, 3, 3⟩ 3 0) (uniformPhase 1) 1 ⟨1, 3, 3⟩ = 3 ∧
      (⟨1, 3, 3⟩ : Index3) ∈ candidates ⟨3, 3, 3⟩ (halfWidth 1 (1 / 2)) ∧
      accept (spikeImage ⟨3, 3, 3⟩ 1 0) 1 ⟨3, 3, 3⟩ ⟨1, 3, 3⟩ = false ∧
      specAccept (1 / 2) (spikeImage ⟨3, 3, 3⟩ 1 0) 1 ⟨3, 3, 3⟩ ⟨1, 3, 3⟩ = true := by
  decide!

/-- The program's pass is the pass in buffer order. -/
theorem coveringRadius_eq_passInOrder (region : Region) (spX : ℚ) (dt : Image)
    (phaseImg : PhaseImage) (phase : Nat) :
    coveringRadius region spX dt phaseImg phase =
      passInOrder region spX dt phaseImg phase
        ((List.range region.total).map region.ComputeIndex) := by
  unfold coveringRadius CoveringRadius.pass passInOrder
  rw [List.foldl_map]

/-- The steps of two voxels that are both outside the target phase commute:
each stores the sentinel at its own index only. -/
theorem voxelStep_comm_of_wrongphase (region : Region) (spX : ℚ) (dt : Image)
    (phaseImg : PhaseImage) (phase : Nat) (out : Image) (a b : Index3)
    (ha : phaseImg a ≠ phase) (hb : phaseImg b ≠ phase) :
    voxelStep region spX dt phaseImg phase (voxelStep region spX dt phaseImg phase out a) b =
      voxelStep region spX dt phaseImg phase (voxelStep region spX dt phaseImg phase out b) a := by
  funext v
  simp only [voxelStep_apply, if_pos ha, if_pos hb]
  by_cases hva : v = a <;> by_cases hvb : v = b <;> simp [hva, hvb]

/-- C11. Order independence fails on the code. In the 2x1x1 volume with
distance values `[0, 1]` and labels `[0, 1]` (target phase 1, spacing 1) the
step of the wrong-phase voxel `(0,0,0)` and the step of the in-phase voxel
`(1,0,0)` do not commute: buffer order leaves `(0,0,0)` at 1, the reverse order
at the sentinel. In the 3x1x1 volume with distance values `[2, 0, 1]`, all of
the target phase, the steps of `(0,0,0)` and `(2,0,0)` do not commute either:
voxel `(1,0,0)` ends at 1 in buffer order and at 2 in the reverse order. -/
theorem pass_depends_on_visiting_order :
    voxelStep ⟨2, 1, 1⟩ 1 (lineImage [0, 1]) (linePhase [0, 1]) 1
        (voxelStep ⟨2, 1, 1⟩ 1 (lineImage [0, 1]) (linePhase [0, 1]) 1 (lineImage [0, 1])
          ⟨0, 0, 0⟩) ⟨1, 0, 0⟩ ⟨0, 0, 0⟩ = 1 ∧
      voxelStep ⟨2, 1, 1⟩ 1 (lineImage [0, 1]) (linePhase [0, 1]) 1
        (voxelStep ⟨2, 1, 1⟩ 1 (lineImage [0, 1]) (linePhase [0, 1]) 1 (lineImage [0, 1])
          ⟨1, 0, 0⟩) ⟨0, 0, 0⟩ ⟨0, 0, 0⟩ = WRONGPHASE ∧
      passInOrder ⟨2, 1, 1⟩ 1 (lineImage [0, 1]) (linePhase [0, 1]) 1
        [⟨0, 0, 0⟩, ⟨1, 0, 0⟩] ⟨0, 0, 0⟩ = 1 ∧
      passInOrder ⟨2, 1, 1⟩ 1 (lineImage [0, 1]) (linePhase [0, 1]) 1
        [⟨1, 0, 0⟩, ⟨0, 0, 0⟩] ⟨0, 0, 0⟩ = WRONGPHASE ∧
      voxelStep ⟨3, 1, 1⟩ 1 (lineImage [2, 0, 1]) (linePhase [1, 1, 1]) 1
        (voxelStep ⟨3, 1, 1⟩ 1 (lineImage [2, 0, 1]) (linePhase [1, 1, 1]) 1
          (lineImage [2, 0, 1]) ⟨0, 0, 0⟩) ⟨2, 0, 0⟩ ⟨1, 0, 0⟩ = 1 ∧
      voxelStep ⟨3, 1, 1⟩ 1 (lineImage [2, 0, 1]) (linePhase [1, 1, 1]) 1
        (voxelStep ⟨3, 1, 1⟩ 1 (lineImage [2, 0, 1]) (linePhase [1, 1, 1]) 1
          (lineImage [2, 0, 1]) ⟨2, 0, 0⟩) ⟨0, 0, 0⟩ ⟨1, 0, 0⟩ = 2 ∧
      passInOrder ⟨3, 1, 1⟩ 1 (lineImage [2, 0, 1]) (linePhase [1, 1, 1]) 1
        [⟨0, 0, 0⟩, ⟨1, 0, 0⟩, ⟨2, 0, 0⟩] ⟨1, 0, 0⟩ = 1 ∧
      passInOrder ⟨3, 1, 1⟩ 1 (lineImage [2, 0, 1]) (linePhase [1, 1, 1]) 1
        [⟨2, 0, 0⟩, ⟨1, 0, 0⟩, ⟨0, 0, 0⟩] ⟨1, 0, 0⟩ = 2 := by
  decide!

end PoreSize
